import Mathlib

/-!
Shallow embedding of the authentication surface of the web-application
template: the MSW mock API handlers (`frontend/app/mocks/handlers`, data in
`frontend/app/mocks/data`, helpers in `frontend/app/mocks/utils/mockHelpers.ts`)
and the frontend password policy (`features/feature_auth/passwordValidation.ts`)
together with the signup / send-reset-password-email form actions.

Requests are modelled as the values the handlers actually inspect (parsed
body fields and the `authToken` cookie, each an `Option String` since a JSON
field may be absent), and responses as a record of status code, message,
optional `Set-Cookie` string and optional data payload.  Timestamps and log
output are outside the model except where a claim is about logging, in which
case the logged error messages are returned explicitly.
-/

-- ==================== Data model ====================

/-- User record shape returned by the API (`UserResponse` in
`mocks/data/users.ts`): email, username, optional contact number and birth
date, numeric role and status. -/
structure UserResponse where
  email : String
  username : String
  contact_number : Option String
  date_of_birth : Option String
  user_role : Nat
  user_status : Nat
deriving DecidableEq, Repr, Inhabited

/-- Standard test user (`MOCK_USER` in `mocks/data/users.ts`). -/
def MOCK_USER : UserResponse :=
  { email := "testuser@example.com"
    username := "testuser"
    contact_number := some "090-1234-5678"
    date_of_birth := some "1990-01-15"
    user_role := 2
    user_status := 1 }

/-- Admin test user (`MOCK_ADMIN_USER` in `mocks/data/users.ts`). -/
def MOCK_ADMIN_USER : UserResponse :=
  { email := "admin@example.com"
    username := "admin"
    contact_number := some "090-9876-5432"
    date_of_birth := some "1985-12-25"
    user_role := 4
    user_status := 1 }

/-- New-registration test user (`MOCK_NEW_USER` in `mocks/data/users.ts`). -/
def MOCK_NEW_USER : UserResponse :=
  { email := "newuser@example.com"
    username := "newuser123"
    contact_number := none
    date_of_birth := none
    user_role := 2
    user_status := 1 }

/-- The list of available test users (`MOCK_USERS`). -/
def MOCK_USERS : List UserResponse := [MOCK_USER, MOCK_ADMIN_USER, MOCK_NEW_USER]

/-- Mock JWT access token (`MOCK_ACCESS_TOKEN` in `mocks/data/constants`). -/
def MOCK_ACCESS_TOKEN : String := "mock-jwt-access-token-12345"

/-- Mock password-reset token (`MOCK_RESET_TOKEN`). -/
def MOCK_RESET_TOKEN : String := "mock-password-reset-token-abcde"

/-- Mock email-verification token (`MOCK_VERIFY_TOKEN`). -/
def MOCK_VERIFY_TOKEN : String := "mock-email-verify-token-fghij"

/-- Cookie name for the session token (`COOKIE_AUTH_TOKEN`). -/
def COOKIE_AUTH_TOKEN : String := "authToken"

/-- Cookie lifetime in seconds (`COOKIE_MAX_AGE = 60 * 60 * 3`, three hours). -/
def COOKIE_MAX_AGE : Nat := 60 * 60 * 3

-- ==================== Response messages (mocks/data/auth.ts) ====================

def MSG_LOGIN_SUCCESS : String := "ログインに成功しました"

def MSG_AUTH_FAILED : String := "メールアドレスまたはパスワードが正しくありません"

def MSG_USER_INFO_SUCCESS : String := "ユーザー情報を取得しました"

def MSG_INVALID_TOKEN : String := "無効なトークンです"

def MSG_SIGNUP_SUCCESS : String := "ユーザー登録が完了しました"

def MSG_VERIFY_EMAIL_SUCCESS : String := "認証メールを送信しました。メールをご確認ください"

def MSG_USER_ALREADY_EXISTS : String := "このメールアドレスは既に登録されています"

def MSG_RESET_EMAIL_SUCCESS : String := "パスワードリセットメールを送信しました"

def MSG_USER_NOT_FOUND : String := "ユーザーが見つかりません"

def MSG_PASSWORD_RESET_SUCCESS : String := "パスワードが正常にリセットされました"

def MSG_USER_UPDATE_SUCCESS : String := "ユーザー情報が正常に更新されました"

-- ==================== User lookup and credentials (mocks/data) ====================

/-- `findUserByEmailOrUsername` from `mocks/data/users.ts`: first mock user
whose email or username equals the argument. -/
def findUserByEmailOrUsername (emailOrUsername : String) : Option UserResponse :=
  MOCK_USERS.find? fun user =>
    user.email == emailOrUsername || user.username == emailOrUsername

/-- `emailExists` from `mocks/data/auth.ts`. -/
def emailExists (email : String) : Bool :=
  (findUserByEmailOrUsername email).isSome

/-- One entry of `VALID_CREDENTIALS` (`ValidCredential` in `mocks/data/auth.ts`). -/
structure ValidCredential where
  emailOrUsername : String
  password : String
  user : UserResponse
deriving DecidableEq, Repr

/-- `VALID_CREDENTIALS` from `mocks/data/auth.ts`, built from
`AUTH_CREDENTIALS.USER` (password `Password123456+-`) and
`AUTH_CREDENTIALS.ADMIN` (password `adminpassword`). -/
def VALID_CREDENTIALS : List ValidCredential :=
  [ { emailOrUsername := "testuser@example.com", password := "Password123456+-", user := MOCK_USER }
  , { emailOrUsername := "testuser", password := "Password123456+-", user := MOCK_USER }
  , { emailOrUsername := "admin@example.com", password := "adminpassword", user := MOCK_ADMIN_USER }
  , { emailOrUsername := "admin", password := "adminpassword", user := MOCK_ADMIN_USER } ]

/-- `authenticateUser` from `mocks/data/auth.ts`: find a credential whose
email-or-username and password both match; return its user, else null. -/
def authenticateUser (emailOrUsername password : String) : Option UserResponse :=
  (VALID_CREDENTIALS.find? fun cred =>
    cred.emailOrUsername == emailOrUsername && cred.password == password).map
    (fun cred => cred.user)

/-- `getUserFromToken` from `mocks/data/auth.ts`: the mock maps the fixed
access token to the standard test user and every other string to null. -/
def getUserFromToken (token : String) : Option UserResponse :=
  if token == MOCK_ACCESS_TOKEN then some MOCK_USER else none

/-- `getTokenType` from `mocks/data/auth.ts`: scan `MOCK_TOKENS`
(access, reset, verify in insertion order) for a value equal to the token. -/
def getTokenType (token : String) : Option String :=
  if token == MOCK_ACCESS_TOKEN then some "access"
  else if token == MOCK_RESET_TOKEN then some "reset"
  else if token == MOCK_VERIFY_TOKEN then some "verify"
  else none

/-- `createAuthCookie` from `mocks/data/auth.ts`: cookie string carrying the
token with HttpOnly, Secure, SameSite=Lax, Max-Age and Path attributes. -/
def createAuthCookie (token : String) : String :=
  COOKIE_AUTH_TOKEN ++ "=" ++ token ++
    "; HttpOnly; Secure; SameSite=Lax; Max-Age=" ++ toString COOKIE_MAX_AGE ++ "; Path=/"

-- ==================== Validation helpers (mockHelpers.ts) ====================

/-- JavaScript whitespace class `\s` (ASCII whitespace plus the Unicode
space separators, line separators and BOM that JS regexes include). -/
def jsWhitespaceChar (c : Char) : Bool :=
  c.isWhitespace || c.toNat == 0x0b || c.toNat == 0x0c || c.toNat == 0xa0 ||
  c.toNat == 0x1680 || (0x2000 ≤ c.toNat && c.toNat ≤ 0x200a) ||
  c.toNat == 0x2028 || c.toNat == 0x2029 || c.toNat == 0x202f ||
  c.toNat == 0x205f || c.toNat == 0x3000 || c.toNat == 0xfeff

/-- Character class `[^\s@]` used by the email regex. -/
def emailChar (c : Char) : Bool :=
  !(jsWhitespaceChar c) && !(c == '@')

/-- `isValidEmail` from `mockHelpers.ts`, the regex
`^[^\s@]+@[^\s@]+\.[^\s@]+$`: exactly one `@` (the character classes all
exclude `@`); a nonempty local part of non-space non-`@` characters; and a
domain part of non-space non-`@` characters containing a dot that is
neither its first nor its last character.  The split at the first `@` is
done with `takeWhile`/`dropWhile`; `domainPart.all emailChar` rules out a
second `@`. -/
def isValidEmail (s : String) : Bool :=
  let cs := s.toList
  let localPart := cs.takeWhile fun c => !(c == '@')
  match cs.dropWhile (fun c => !(c == '@')) with
  | [] => false
  | _ :: domainPart =>
    !localPart.isEmpty &&
    localPart.all emailChar &&
    domainPart.all emailChar &&
    ((domainPart.drop 1).dropLast.contains '.')

/-- `isValidPassword` from `mockHelpers.ts`: at least 8 characters.  This is
the (weaker) password check used by the mock API handlers, distinct from the
frontend `isPasswordValid` regex. -/
def isValidPassword (password : String) : Bool :=
  decide (8 ≤ password.length)

/-- JavaScript truthiness of an optional string field: absent (`undefined`)
and the empty string are falsy. -/
def jsFalsy : Option String → Bool
  | none => true
  | some s => s == ""

/-- JavaScript truthiness, positively. -/
def jsTruthy (v : Option String) : Bool :=
  !(jsFalsy v)

/-- The test `s.trim() === ''`: a string trims to empty exactly when every
character is whitespace. -/
def trimmedEmpty (s : String) : Bool :=
  s.toList.all jsWhitespaceChar

/-- One field's test inside `validateRequiredFields` of `mockHelpers.ts`:
a field is missing when it is falsy or trims to the empty string. -/
def fieldMissing (v : Option String) : Bool :=
  match v with
  | none => true
  | some s => s == "" || trimmedEmpty s

-- ==================== Frontend password policy ====================

/-- `getAllowedSymbols` from
`features/feature_auth/passwordValidation.ts`. -/
def getAllowedSymbols : String :=
  "-!\"#$%&()*+,./:;<=>?@[\\]^_`\x7b|\x7d~"

/-- The enumerated allowed symbols as characters. -/
def allowedSymbols : List Char := getAllowedSymbols.toList

/-- Membership in the allowed-symbol class of the password regex. -/
def isSymbolChar (c : Char) : Bool :=
  allowedSymbols.contains c

/-- Membership in the body class `[A-Za-z\d` followed by the allowed
symbols and `]` of the password regex: ASCII letter, ASCII digit, or an
allowed symbol. -/
def isAllowedChar (c : Char) : Bool :=
  c.isLower || c.isUpper || c.isDigit || isSymbolChar c

/-- `isPasswordValid` from `features/feature_auth/passwordValidation.ts`,
the anchored regex
`^(?=.*[a-z])(?=.*[A-Z])(?=.*\d)(?=.*[sym])[A-Za-z\d sym]{8,}$`:
at least 8 characters, every character a letter, digit or allowed symbol,
and at least one lowercase letter, one uppercase letter, one digit and one
allowed symbol. -/
def isPasswordValid (password : String) : Bool :=
  let cs := password.toList
  decide (8 ≤ cs.length) && cs.all isAllowedChar &&
  cs.any Char.isLower && cs.any Char.isUpper &&
  cs.any Char.isDigit && cs.any isSymbolChar

-- ==================== HTTP response model ====================

/-- Payload carried in the `data` field of a mock response body. -/
inductive RespData
  | none
  | user (u : UserResponse)
  | token (access_token : String) (token_type : String)
  | message (m : String)
deriving DecidableEq, Repr, Inhabited

/-- Observable parts of a mock handler's HTTP response: status code, the
message (`detail` of an error body or `message` of a success body), the
`Set-Cookie` header when one is set, and the data payload.  Timestamps are
not modelled. -/
structure MockResponse where
  status : Nat
  message : String
  setCookie : Option String := Option.none
  data : RespData := RespData.none
deriving DecidableEq, Repr, Inhabited

-- ==================== Mock API handlers (mocks/handlers) ====================

/-- The `Set-Cookie` string built inline by `loginHandler`
(`authToken=<token>; HttpOnly; Secure; SameSite=Lax; Path=/` — note: no
Max-Age attribute, unlike the unused `createAuthCookie` helper). -/
def loginCookieString : String :=
  "authToken=" ++ MOCK_ACCESS_TOKEN ++ "; HttpOnly; Secure; SameSite=Lax; Path=/"

/-- `loginHandler` (POST /api/v1/auth/login): authenticate the form
credentials; on success return 200 with the fixed access token as both
body data and `authToken` cookie; on failure return 401 with the generic
authentication-failed detail. -/
def loginHandler (username password : String) : MockResponse :=
  match authenticateUser username password with
  | some _ =>
    { status := 200
      message := MSG_LOGIN_SUCCESS
      setCookie := some loginCookieString
      data := RespData.token MOCK_ACCESS_TOKEN "bearer" }
  | Option.none =>
    { status := 401, message := MSG_AUTH_FAILED }

/-- `getMeHandler` (POST /api/v1/auth/me): 401 when the `authToken` cookie
is absent (or empty, hence falsy); otherwise resolve the token; 200 with
the user on success, 403 with the invalid-token detail when the token does
not resolve. -/
def getMeHandler (authToken : Option String) : MockResponse :=
  if jsFalsy authToken then
    { status := 401, message := "Unauthorized" }
  else
    match getUserFromToken (authToken.getD "") with
    | some user =>
      { status := 200, message := MSG_USER_INFO_SUCCESS, data := RespData.user user }
    | Option.none =>
      { status := 403, message := MSG_INVALID_TOKEN }

/-- `signupHandler` (POST /api/v1/auth/signup): 400 when the token is
missing or blank after trimming; 400 with the invalid-token detail when
its type is not `verify`; otherwise 200 success.  The mock keeps no token
state, so the outcome depends only on the presented token value. -/
def signupHandler (token : Option String) : MockResponse :=
  if jsFalsy token || trimmedEmpty (token.getD "") then
    { status := 400, message := "Invalid or missing token" }
  else if getTokenType (token.getD "") ≠ some "verify" then
    { status := 400, message := MSG_INVALID_TOKEN }
  else
    { status := 200, message := MSG_SIGNUP_SUCCESS, data := RespData.message MSG_SIGNUP_SUCCESS }

/-- Each signup request is handled independently by the stateless
`signupHandler`; a sequence of requests yields the pointwise responses. -/
def processSignups (tokens : List (Option String)) : List MockResponse :=
  tokens.map signupHandler

/-- Missing-field list computed by `validateRequiredFields` for the
send-verify-email body (fields `email`, `username`). -/
def sendVerifyEmailMissing (email username : Option String) : List String :=
  (if fieldMissing email then ["email"] else []) ++
  (if fieldMissing username then ["username"] else [])

/-- `sendVerifyEmailHandler` (POST /api/v1/auth/send-verify-email):
400 when required fields are missing; 400 on bad email format; 400 with
the already-registered detail when the email matches an existing mock
user; otherwise 200.  The password field of the body is not inspected. -/
def sendVerifyEmailHandler (email username password : Option String) : MockResponse :=
  let missingFields := sendVerifyEmailMissing email username
  if 0 < missingFields.length then
    { status := 400
      message := "Required fields are missing: " ++ String.intercalate ", " missingFields }
  else if !isValidEmail (email.getD "") then
    { status := 400, message := "Invalid email format" }
  else if emailExists (email.getD "") then
    { status := 400, message := MSG_USER_ALREADY_EXISTS }
  else
    { status := 200
      message := MSG_VERIFY_EMAIL_SUCCESS
      data := RespData.message MSG_VERIFY_EMAIL_SUCCESS }

/-- Missing-field list for the reset-password body (fields `token`,
`new_password`). -/
def resetPasswordMissing (token new_password : Option String) : List String :=
  (if fieldMissing token then ["token"] else []) ++
  (if fieldMissing new_password then ["new_password"] else [])

/-- `resetPasswordHandler` (POST /api/v1/auth/reset-password): 400 when
required fields are missing; 400 with the invalid-token detail when the
token's type is not `reset`; 400 when the new password is shorter than 8
characters; otherwise 200 success. -/
def resetPasswordHandler (token new_password : Option String) : MockResponse :=
  let missingFields := resetPasswordMissing token new_password
  if 0 < missingFields.length then
    { status := 400
      message := "Required fields are missing: " ++ String.intercalate ", " missingFields }
  else if getTokenType (token.getD "") ≠ some "reset" then
    { status := 400, message := MSG_INVALID_TOKEN }
  else if !isValidPassword (new_password.getD "") then
    { status := 400, message := "Password must be at least 8 characters long" }
  else
    { status := 200
      message := MSG_PASSWORD_RESET_SUCCESS
      data := RespData.message MSG_PASSWORD_RESET_SUCCESS }

/-- `updateMockUser` from `mocks/data/users.ts`: spread-merge the updates
(which the handler populates only with `email` and `username`) over the
current user. -/
def updateMockUser (currentUser : UserResponse) (emailUpd usernameUpd : Option String) : UserResponse :=
  { currentUser with
    email := emailUpd.getD currentUser.email
    username := usernameUpd.getD currentUser.username }

/-- Body processing of `updateUserHandler` after authentication succeeded
with `currentUser`: require at least one truthy field; validate email
format and password strength when supplied; then apply only the email and
username updates (`updates` never receives the password) and return the
merged user. -/
def updateUserBody (currentUser : UserResponse) (email username password : Option String) : MockResponse :=
  if !jsTruthy email && !jsTruthy username && !jsTruthy password then
    { status := 400, message := "At least one field must be provided for update" }
  else if jsTruthy email && !isValidEmail (email.getD "") then
    { status := 400, message := "Invalid email format" }
  else if jsTruthy password && !isValidPassword (password.getD "") then
    { status := 400, message := "Password must be at least 8 characters long" }
  else
    { status := 200
      message := MSG_USER_UPDATE_SUCCESS
      data := RespData.user (updateMockUser currentUser
        (if jsTruthy email then email else Option.none)
        (if jsTruthy username then username else Option.none)) }

/-- `updateUserHandler` (PATCH /api/v1/auth/me): 401 when the cookie is
falsy, 403 when the token does not resolve to a user, else process the
body against the resolved current user. -/
def updateUserHandler (authToken : Option String) (email username password : Option String) : MockResponse :=
  if jsFalsy authToken then
    { status := 401, message := "Unauthorized" }
  else
    match getUserFromToken (authToken.getD "") with
    | Option.none => { status := 403, message := MSG_INVALID_TOKEN }
    | some currentUser => updateUserBody currentUser email username password

-- ==================== Frontend form actions ====================

/-- Outcome of the fire-and-forget email-send promise: it either resolves
or rejects with an error. -/
inductive EmailSendOutcome
  | resolved
  | rejected (error : String)
deriving DecidableEq, Repr

/-- Response returned by a React Router action: a redirect or a JSON error
body with a status. -/
inductive ActionResponse
  | redirect (location : String)
  | jsonError (status : Nat) (error : String)
deriving DecidableEq, Repr

/-- An action's observable effect: its HTTP response and the error messages
it logged to the console. -/
structure ActionResult where
  response : ActionResponse
  loggedErrors : List String
deriving DecidableEq, Repr

/-- The validation-error body of the signup action (Japanese policy
message listing the allowed symbols). -/
def signupPasswordErrorBody : String :=
  "パスワードが無効です。\n条件を満たしていません。\n\n・ 8文字以上\n・ 大文字・小文字\n・ 数字\n・ 次の記号のいずれかを含む必要があります:\n\t" ++ getAllowedSymbols

/-- The signup page `action` (`routes/signup.tsx`): reject the form with a
400 JSON error when the password fails the policy; otherwise start the
verification email send without awaiting it — a rejection is caught and
logged — and return the redirect to the confirmation page. -/
def signupPageAction (email password username : String) (emailSend : EmailSendOutcome) : ActionResult :=
  if !isPasswordValid password then
    { response := ActionResponse.jsonError 400 signupPasswordErrorBody
      loggedErrors := [] }
  else
    { response := ActionResponse.redirect "/send-signup-email"
      loggedErrors :=
        match emailSend with
        | EmailSendOutcome.resolved => []
        | EmailSendOutcome.rejected e => ["Error sending verification email: " ++ e] }

/-- The `SendResetPasswordEmail` page `action`: start the password-reset
email send without awaiting it — a rejection is caught and logged — and
return the redirect to the completion page. -/
def sendResetPasswordEmailAction (email : String) (emailSend : EmailSendOutcome) : ActionResult :=
  { response := ActionResponse.redirect "/send-reset-password-email-complete"
    loggedErrors :=
      match emailSend with
      | EmailSendOutcome.resolved => []
      | EmailSendOutcome.rejected e => ["Error sending password-reset email: " ++ e] }

/-- Occurrence of `sub` as a contiguous run inside a character list. -/
def subOccurs (sub : List Char) : List Char → Bool
  | [] => sub.isEmpty
  | c :: rest => sub.isPrefixOf (c :: rest) || subOccurs sub rest

/-- Substring test used to talk about cookie attributes. -/
def hasSubstring (s sub : String) : Bool :=
  subOccurs sub.toList s.toList

-- ==================== Claim C4 ====================

/-- C4, counterexample: the claim's characterization of `isPasswordValid`
("true exactly when the password is at least 8 characters and contains a
lowercase letter, an uppercase letter, a digit and an allowed symbol")
fails at `"Aa1!aaaa "`: the string has 9 characters and contains all four
required classes, yet `isPasswordValid` returns `false`, because the regex
additionally requires every character to be a letter, digit or allowed
symbol, and the trailing space is none of these. -/
theorem isPasswordValid_claim_counterexample :
  isPasswordValid "Aa1!aaaa " = false ∧
  8 ≤ "Aa1!aaaa ".length ∧
  "Aa1!aaaa ".toList.any Char.isLower = true ∧
  "Aa1!aaaa ".toList.any Char.isUpper = true ∧
  "Aa1!aaaa ".toList.any Char.isDigit = true ∧
  "Aa1!aaaa ".toList.any isSymbolChar = true := by
  decide

/-- C4, amended: `isPasswordValid` is a pure predicate returning `true`
exactly when the password is at least 8 characters, every character is an
ASCII letter, an ASCII digit or a symbol from the enumerated allowed set,
and it contains at least one lowercase letter, one uppercase letter, one
digit and one allowed symbol; in particular
`isPasswordValid "Password123456+-" = true`,
`isPasswordValid "password" = false` and
`isPasswordValid "Short1!" = false`. -/
theorem isPasswordValid_characterization :
  (∀ pw : String, isPasswordValid pw = true ↔
    (8 ≤ pw.length ∧
     (∀ c ∈ pw.toList, isAllowedChar c = true) ∧
     (∃ c ∈ pw.toList, c.isLower = true) ∧
     (∃ c ∈ pw.toList, c.isUpper = true) ∧
     (∃ c ∈ pw.toList, c.isDigit = true) ∧
     (∃ c ∈ pw.toList, isSymbolChar c = true))) ∧
  isPasswordValid "Password123456+-" = true ∧
  isPasswordValid "password" = false ∧
  isPasswordValid "Short1!" = false := by
  refine ⟨fun pw => ?_, by decide, by decide, by decide⟩
  simp only [isPasswordValid, Bool.and_eq_true, decide_eq_true_eq,
    List.all_eq_true, List.any_eq_true, String.length, String.toList]
  tauto

-- ==================== Claim C1 ====================

/-- C1, counterexample: the mock signup endpoint keeps no token state, so a
verify-email token is not single-use.  Presenting the issued verify token
twice yields the 200 success response both times; in particular the second
(replayed) call does not produce the 400 invalid-token response the claim
requires. -/
theorem signup_replay_counterexample :
  processSignups [some MOCK_VERIFY_TOKEN, some MOCK_VERIFY_TOKEN] =
    [ { status := 200, message := MSG_SIGNUP_SUCCESS, data := RespData.message MSG_SIGNUP_SUCCESS },
      { status := 200, message := MSG_SIGNUP_SUCCESS, data := RespData.message MSG_SIGNUP_SUCCESS } ] ∧
  (processSignups [some MOCK_VERIFY_TOKEN, some MOCK_VERIFY_TOKEN]).getLast? ≠
    some { status := 400, message := MSG_INVALID_TOKEN } := by
  decide

/-- C1, amended: the mock signup endpoint is stateless — its response
depends only on the presented token value.  A signup call presenting the
verify-email mock token succeeds with 200 after any sequence of prior
signup calls (in particular after a previous successful call consuming
nothing), and any signup call that succeeds presented a token whose type
is `verify`. -/
theorem signup_verify_token_always_succeeds (prior : List (Option String)) (t : String) :
  (processSignups (prior ++ [some MOCK_VERIFY_TOKEN])).getLast? =
    some { status := 200, message := MSG_SIGNUP_SUCCESS, data := RespData.message MSG_SIGNUP_SUCCESS } ∧
  ((signupHandler (some t)).status = 200 → getTokenType t = some "verify") := by
  constructor
  · simp only [processSignups, List.map_append, List.map_cons, List.map_nil,
      List.getLast?_append_cons]
    decide
  · intro h
    unfold signupHandler at h
    split at h
    · exact absurd h (by decide)
    · split at h
      · exact absurd h (by decide)
      · next h2 =>
          rw [not_ne_iff] at h2
          simpa using h2

/-- Witness for the amended C1 theorem at the empty prior sequence and the
verify token itself. -/
theorem signup_verify_token_always_succeeds_witness :
  (signupHandler (some MOCK_VERIFY_TOKEN)).status = 200 ∧
  getTokenType MOCK_VERIFY_TOKEN = some "verify" :=
  ⟨by decide, (signup_verify_token_always_succeeds [] MOCK_VERIFY_TOKEN).2 (by decide)⟩

-- ==================== Claim C2 ====================

/-- C2, counterexample: a send-verify-email request for the already
registered address `testuser@example.com` fails with HTTP status 400 (with
the already-registered detail), not with status 409 as the claim states. -/
theorem send_verify_email_conflict_counterexample :
  sendVerifyEmailHandler (some "testuser@example.com") (some "newname") (some "Whatever123") =
    { status := 400, message := MSG_USER_ALREADY_EXISTS } ∧
  (sendVerifyEmailHandler (some "testuser@example.com") (some "newname") (some "Whatever123")).status ≠ 409 := by
  decide

/-- C2, amended: for every send-verify-email request whose required fields
are present, whose email passes the format check, and whose email belongs
to an existing mock user, the operation fails with HTTP status 400 and the
already-registered detail (the mock surfaces the duplicate email as 400,
not 409). -/
theorem send_verify_email_conflict_status (email username password : Option String)
    (hmiss : sendVerifyEmailMissing email username = [])
    (hfmt : isValidEmail (email.getD "") = true)
    (hex : emailExists (email.getD "") = true) :
    sendVerifyEmailHandler email username password =
      { status := 400, message := MSG_USER_ALREADY_EXISTS } := by
  simp [sendVerifyEmailHandler, hmiss, hfmt, hex]

/-- Witness for the amended C2 theorem at the registered test address. -/
theorem send_verify_email_conflict_status_witness :
  sendVerifyEmailMissing (some "testuser@example.com") (some "newname") = [] ∧
  isValidEmail (((some "testuser@example.com") : Option String).getD "") = true ∧
  emailExists (((some "testuser@example.com") : Option String).getD "") = true ∧
  sendVerifyEmailHandler (some "testuser@example.com") (some "newname") (some "pw") =
    { status := 400, message := MSG_USER_ALREADY_EXISTS } :=
  ⟨by decide, by decide, by decide,
   send_verify_email_conflict_status (some "testuser@example.com") (some "newname") (some "pw")
     (by decide) (by decide) (by decide)⟩

-- ==================== Claim C3 ====================

/-- C3, counterexample: a me request carrying an `authToken` cookie that is
present but not a valid session token is answered with HTTP status 403
(invalid-token detail), not 401 as the claim states for that case. -/
theorem me_invalid_token_counterexample :
  getMeHandler (some "not-a-valid-token") = { status := 403, message := MSG_INVALID_TOKEN } ∧
  (getMeHandler (some "not-a-valid-token")).status ≠ 401 := by
  decide

/-- C3, amended: for every me request, if the `authToken` cookie is missing
(or empty, hence falsy) the response is 401 Unauthorized; if the cookie is
present but does not resolve to a user, the response is 403 with the
invalid-token detail — the two failure cases get different statuses. -/
theorem me_unauthenticated_statuses (authToken : Option String) :
  getMeHandler Option.none = { status := 401, message := "Unauthorized" } ∧
  (jsFalsy authToken = true →
    getMeHandler authToken = { status := 401, message := "Unauthorized" }) ∧
  (jsFalsy authToken = false → getUserFromToken (authToken.getD "") = Option.none →
    getMeHandler authToken = { status := 403, message := MSG_INVALID_TOKEN }) := by
  refine ⟨by decide, fun hf => ?_, fun ht hu => ?_⟩
  · simp [getMeHandler, hf]
  · simp [getMeHandler, ht, hu]

/-- Witness for the amended C3 theorem at an absent cookie and at a bogus
token. -/
theorem me_unauthenticated_statuses_witness :
  jsFalsy (some "bogus-token") = false ∧
  getUserFromToken (((some "bogus-token") : Option String).getD "") = Option.none ∧
  getMeHandler (some "bogus-token") = { status := 403, message := MSG_INVALID_TOKEN } :=
  ⟨by decide, by decide,
   (me_unauthenticated_statuses (some "bogus-token")).2.2 (by decide) (by decide)⟩

-- ==================== Claim C5 ====================

/-- C5: purpose isolation.  A signup call succeeds (200) only when the
presented token's type is `verify`, a reset-password call succeeds only
when the presented token's type is `reset`, and the two cross cases — the
reset token presented to signup and the verify token presented to
reset-password — each fail with 400 and the invalid-token detail. -/
theorem token_purpose_isolation (t : String) (new_password : Option String) :
  ((signupHandler (some t)).status = 200 → getTokenType t = some "verify") ∧
  ((resetPasswordHandler (some t) new_password).status = 200 → getTokenType t = some "reset") ∧
  signupHandler (some MOCK_RESET_TOKEN) = { status := 400, message := MSG_INVALID_TOKEN } ∧
  resetPasswordHandler (some MOCK_VERIFY_TOKEN) (some "NewPassword123") =
    { status := 400, message := MSG_INVALID_TOKEN } := by
  refine ⟨fun h => ?_, fun h => ?_, by decide, by decide⟩
  · exact (signup_verify_token_always_succeeds [] t).2 h
  · by_cases h1 : 0 < (resetPasswordMissing (some t) new_password).length
    · simp [resetPasswordHandler, h1] at h
    · by_cases h2 : getTokenType t = some "reset"
      · exact h2
      · simp [resetPasswordHandler, h1, h2] at h

/-- Witness for the C5 theorem at the matching tokens. -/
theorem token_purpose_isolation_witness :
  getTokenType MOCK_VERIFY_TOKEN = some "verify" ∧
  getTokenType MOCK_RESET_TOKEN = some "reset" :=
  ⟨(token_purpose_isolation MOCK_VERIFY_TOKEN (some "NewPassword123")).1 (by decide),
   (token_purpose_isolation MOCK_RESET_TOKEN (some "NewPassword123")).2.1 (by decide)⟩

-- ==================== Claim C6 ====================

/-- C6: login failure is uniform.  Any two login requests on which
`authenticateUser` finds no matching credential — whether the account does
not exist or the password mismatches — receive literally the same
response: status 401 with the generic authentication-failed detail, no
cookie and no data, so the response does not reveal whether the account
exists. -/
theorem login_failure_uniform (u1 p1 u2 p2 : String)
    (h1 : authenticateUser u1 p1 = Option.none)
    (h2 : authenticateUser u2 p2 = Option.none) :
    loginHandler u1 p1 = loginHandler u2 p2 ∧
    loginHandler u1 p1 = { status := 401, message := MSG_AUTH_FAILED } := by
  unfold loginHandler
  rw [h1, h2]
  exact ⟨rfl, rfl⟩

/-- Witness for the C6 theorem: an existing user with a wrong password and
a nonexistent user receive the identical 401 response. -/
theorem login_failure_uniform_witness :
  authenticateUser "testuser@example.com" "wrong" = Option.none ∧
  authenticateUser "nobody@example.com" "x" = Option.none ∧
  loginHandler "testuser@example.com" "wrong" = loginHandler "nobody@example.com" "x" ∧
  loginHandler "testuser@example.com" "wrong" = { status := 401, message := MSG_AUTH_FAILED } :=
  ⟨by decide, by decide,
   (login_failure_uniform "testuser@example.com" "wrong" "nobody@example.com" "x"
     (by decide) (by decide)).1,
   (login_failure_uniform "testuser@example.com" "wrong" "nobody@example.com" "x"
     (by decide) (by decide)).2⟩

-- ==================== Claim C7 ====================

/-- C7, counterexample: the `Set-Cookie` of a successful login carries
HttpOnly, Secure, SameSite=Lax and Path=/ but no Max-Age attribute at all —
`loginHandler` builds its cookie string inline without a Max-Age, so the
claim's "bounded Max-Age" part fails. -/
theorem login_cookie_no_max_age_counterexample :
  (loginHandler "testuser@example.com" "Password123456+-").setCookie = some loginCookieString ∧
  hasSubstring loginCookieString "Max-Age" = false := by
  decide

/-- C7, amended: for every successful login, the `Set-Cookie` header sets
the `authToken` cookie with attributes HttpOnly, Secure, SameSite=Lax and
Path=/, but with no Max-Age attribute (a browser-session cookie); the
`createAuthCookie` helper would add `Max-Age=10800` (three hours) but
`loginHandler` does not use it. -/
theorem login_cookie_attributes (u p : String) (usr : UserResponse)
    (h : authenticateUser u p = some usr) :
    (loginHandler u p).setCookie = some loginCookieString ∧
    hasSubstring loginCookieString ("authToken=" ++ MOCK_ACCESS_TOKEN) = true ∧
    hasSubstring loginCookieString "HttpOnly" = true ∧
    hasSubstring loginCookieString "Secure" = true ∧
    hasSubstring loginCookieString "SameSite=Lax" = true ∧
    hasSubstring loginCookieString "Path=/" = true ∧
    hasSubstring loginCookieString "Max-Age" = false ∧
    hasSubstring (createAuthCookie MOCK_ACCESS_TOKEN) "Max-Age=10800" = true := by
  refine ⟨?_, by decide, by decide, by decide, by decide, by decide, by decide, by decide⟩
  unfold loginHandler
  rw [h]

/-- Witness for the amended C7 theorem at the standard test credentials. -/
theorem login_cookie_attributes_witness :
  authenticateUser "testuser@example.com" "Password123456+-" = some MOCK_USER ∧
  (loginHandler "testuser@example.com" "Password123456+-").setCookie = some loginCookieString :=
  ⟨by decide,
   (login_cookie_attributes "testuser@example.com" "Password123456+-" MOCK_USER (by decide)).1⟩

-- ==================== Claim C8 ====================

/-- C8: email dispatch is fire-and-forget.  For the signup action (with a
policy-passing password) and the send-password-reset-email action, the
returned response is the same redirect to the confirmation page whether
the email-send promise resolves or rejects; a rejection is only logged
(with the action's console error prefix), never surfaced in the
response. -/
theorem email_dispatch_fire_and_forget
    (email password username resetEmail e : String)
    (o1 o2 : EmailSendOutcome)
    (hpw : isPasswordValid password = true) :
    (signupPageAction email password username o1).response =
      (signupPageAction email password username o2).response ∧
    (signupPageAction email password username o1).response =
      ActionResponse.redirect "/send-signup-email" ∧
    (signupPageAction email password username (EmailSendOutcome.rejected e)).loggedErrors =
      ["Error sending verification email: " ++ e] ∧
    (sendResetPasswordEmailAction resetEmail o1).response =
      (sendResetPasswordEmailAction resetEmail o2).response ∧
    (sendResetPasswordEmailAction resetEmail o1).response =
      ActionResponse.redirect "/send-reset-password-email-complete" ∧
    (sendResetPasswordEmailAction resetEmail (EmailSendOutcome.rejected e)).loggedErrors =
      ["Error sending password-reset email: " ++ e] := by
  refine ⟨?_, ?_, ?_, rfl, rfl, rfl⟩ <;>
    simp [signupPageAction, hpw]

/-- Witness for the C8 theorem at a policy-passing password, with one
resolving and one rejecting email send. -/
theorem email_dispatch_fire_and_forget_witness :
  isPasswordValid "Password123456+-" = true ∧
  (signupPageAction "a@b.com" "Password123456+-" "alice" EmailSendOutcome.resolved).response =
    (signupPageAction "a@b.com" "Password123456+-" "alice" (EmailSendOutcome.rejected "boom")).response :=
  ⟨by decide,
   (email_dispatch_fire_and_forget "a@b.com" "Password123456+-" "alice" "c@d.com" "boom"
     EmailSendOutcome.resolved (EmailSendOutcome.rejected "boom") (by decide)).1⟩

-- ==================== Claim C9 ====================

/-- C9: every successful login — whichever stored credential matched, user
or admin, by email or by username — sets the one fixed mock access token
(in the body and as the `authToken` cookie, via the constant cookie
string), and session validation maps that token to the standard test user;
hence a me request after logging in as the admin returns the standard test
user's data, which differs from the admin's. -/
theorem login_fixed_token_session (u p : String) (usr : UserResponse)
    (h : authenticateUser u p = some usr) :
    loginHandler u p =
      { status := 200
        message := MSG_LOGIN_SUCCESS
        setCookie := some loginCookieString
        data := RespData.token MOCK_ACCESS_TOKEN "bearer" } ∧
    getUserFromToken MOCK_ACCESS_TOKEN = some MOCK_USER ∧
    getMeHandler (some MOCK_ACCESS_TOKEN) =
      { status := 200, message := MSG_USER_INFO_SUCCESS, data := RespData.user MOCK_USER } ∧
    MOCK_USER ≠ MOCK_ADMIN_USER := by
  refine ⟨?_, by decide, by decide, by decide⟩
  unfold loginHandler
  rw [h]

/-- Witness for the C9 theorem at the admin credentials: logging in as the
admin succeeds, yet the session resolves to the standard test user. -/
theorem login_fixed_token_session_witness :
  authenticateUser "admin@example.com" "adminpassword" = some MOCK_ADMIN_USER ∧
  getMeHandler (some MOCK_ACCESS_TOKEN) =
    { status := 200, message := MSG_USER_INFO_SUCCESS, data := RespData.user MOCK_USER } :=
  ⟨by decide,
   (login_fixed_token_session "admin@example.com" "adminpassword" MOCK_ADMIN_USER
     (by decide)).2.2.1⟩

-- ==================== Claim C10 ====================

/-- Merging a field that the handler only forwards when truthy: the merged
value is the supplied string exactly when one was supplied and nonempty. -/
theorem truthyUpdate_getD (v : Option String) (old : String) :
    (if jsTruthy v then v else Option.none).getD old =
      if jsTruthy v then v.getD old else old := by
  cases v with
  | none => simp [jsTruthy, jsFalsy]
  | some s => by_cases hs : s = "" <;> simp [jsTruthy, jsFalsy, hs]

/-- C10: the profile-update operation changes only email and username.
Whenever the body processing of the PATCH /auth/me handler returns 200,
the returned user is the current user with the email replaced exactly when
a nonempty email was supplied and the username replaced exactly when a
nonempty username was supplied; contact number, birth date, role and
status are unchanged, and the supplied password — though validated, as the
second conjunct shows — never reaches the user record (the result does not
depend on it). -/
theorem update_user_changes_only_email_username
    (cur : UserResponse) (email username password : Option String) :
    ((updateUserBody cur email username password).status = 200 →
      updateUserBody cur email username password =
        { status := 200
          message := MSG_USER_UPDATE_SUCCESS
          data := RespData.user
            { email := if jsTruthy email then email.getD cur.email else cur.email
              username := if jsTruthy username then username.getD cur.username else cur.username
              contact_number := cur.contact_number
              date_of_birth := cur.date_of_birth
              user_role := cur.user_role
              user_status := cur.user_status } }) ∧
    (jsTruthy password = true → isValidPassword (password.getD "") = false →
      (updateUserBody cur email username password).status = 400) := by
  constructor
  · intro h
    unfold updateUserBody at h ⊢
    split at h
    · exact absurd h (by simp_all)
    · split at h
      · exact absurd h (by simp_all)
      · split at h
        · exact absurd h (by simp_all)
        · next hno hfmt hpw =>
            simp only [if_neg hno, if_neg hfmt, if_neg hpw]
            simp [updateMockUser, truthyUpdate_getD]
  · intro ht hv
    unfold updateUserBody
    split
    · next hall => simp [ht] at hall
    · split
      · rfl
      · split
        · rfl
        · next h1 h2 h3 =>
            exfalso
            exact h3 (by simp [ht, hv])

/-- Witness for the C10 theorem: updating only the email of the standard
test user yields the same record with just the email replaced, and a
truthy but too-short password is rejected with 400. -/
theorem update_user_changes_only_email_username_witness :
  (updateUserBody MOCK_USER (some "new@example.com") Option.none (some "longpassword")).status = 200 ∧
  updateUserBody MOCK_USER (some "new@example.com") Option.none (some "longpassword") =
    { status := 200
      message := MSG_USER_UPDATE_SUCCESS
      data := RespData.user
        { email := "new@example.com"
          username := MOCK_USER.username
          contact_number := MOCK_USER.contact_number
          date_of_birth := MOCK_USER.date_of_birth
          user_role := MOCK_USER.user_role
          user_status := MOCK_USER.user_status } } ∧
  jsTruthy (some "short") = true ∧
  isValidPassword (((some "short") : Option String).getD "") = false ∧
  (updateUserBody MOCK_USER (some "new@example.com") Option.none (some "short")).status = 400 := by
  refine ⟨by decide, by decide, by decide, by decide, ?_⟩
  exact (update_user_changes_only_email_username MOCK_USER
    (some "new@example.com") Option.none (some "short")).2 (by decide) (by decide)
